import Mathlib

/-!
Shallow embedding of `auto_session_warning.py` (the auto session-expiry
warning plugin) and proofs of the spec's testable properties.

Modelling conventions:
- Python floats (timestamps, hour counts) are embedded as `ℚ`.
- Time is passed explicitly: `nowDt` stands for `datetime.now()` (seconds),
  `nowTs` for `time.time()`.
- The external JSON state files are an `Env` value: `none` for an absent (or
  unreadable) file, `some` for parsed contents with Python's `.get` defaults.
- Network calls are parameters describing the backend's observable response;
  every Python function that swallows exceptions and returns a value is
  embedded as a total function over those parameters.
-/

namespace AutoSessionWarning

/-- Parsed contents of `wx849_device_info.json`. A JSON field absent from the
file is represented by its Python `.get` default: `""` for `wxid` /
`device_id` and `0` for `login_time`. -/
structure DeviceInfo where
  wxid : String
  device_id : String
  login_time : Int
deriving DecidableEq, Repr

/-- Parsed contents of one fallback `login_stat.json` file. -/
structure LoginStat where
  login_time : Int
deriving DecidableEq, Repr

/-- The external state files visible to the plugin: the primary
`wx849_device_info.json` (`none` when the file is absent or unreadable) and
the fallback `login_stat.json` files probed in order (`Client`, `Client2`,
`Client3` in the source). -/
structure Env where
  deviceInfo : Option DeviceInfo
  loginStats : List (Option LoginStat)
deriving DecidableEq, Repr

/-- The persisted plugin configuration fields that the plugin itself reads
and mutates (`config.json`); the HTTP plumbing fields (`api_host` etc.) are
outside the spec's scope and not modelled. -/
structure Config where
  auto_session_warning_enabled : Bool
  auto_session_warning_threshold : ℚ
  auto_session_warning_target : String
  session_duration_hours : ℚ
  check_interval_hours : ℚ
deriving DecidableEq, Repr

/-- `_load_default_config`: the defaults used when no persisted configuration
exists at construction. -/
def loadDefaultConfig : Config :=
  { auto_session_warning_enabled := true
    auto_session_warning_threshold := 2
    auto_session_warning_target := ""
    session_duration_hours := 72
    check_interval_hours := 2 }

/-- The mutable state of `AutoSessionWarningPlugin`: the config dict, the
fields copied out of it in `__init__`, and the transient runtime state. -/
structure PluginState where
  config : Config
  warning_enabled : Bool
  warning_threshold : ℚ
  warning_target : String
  session_duration_hours : ℚ
  check_interval_hours : ℚ
  is_running : Bool
  last_warning_time : ℚ
  current_wxid : String
  current_device_id : String
deriving DecidableEq, Repr

/-- `_start_background_check`: no-op if already running, else mark the
background thread as running. -/
def startBackgroundCheck (s : PluginState) : PluginState :=
  if s.is_running then s else { s with is_running := true }

/-- `__init__`: load the persisted config (`none` models `load_config()`
returning nothing, in which case `_load_default_config` is used), copy the
warning/session fields, initialize runtime state, and start the background
check when the warning feature is enabled. -/
def initPlugin (loaded : Option Config) : PluginState :=
  let config := match loaded with
    | some c => c
    | none => loadDefaultConfig
  let s : PluginState :=
    { config := config
      warning_enabled := config.auto_session_warning_enabled
      warning_threshold := config.auto_session_warning_threshold
      warning_target := config.auto_session_warning_target
      session_duration_hours := config.session_duration_hours
      check_interval_hours := config.check_interval_hours
      is_running := false
      last_warning_time := 0
      current_wxid := ""
      current_device_id := "" }
  if s.warning_enabled then startBackgroundCheck s else s

/-- The fallback loop of `_get_real_login_time`: probe each `login_stat.json`
in order and return the first positive `login_time` found. -/
def loginTimeFromStats : List (Option LoginStat) → Option ℚ
  | [] => none
  | none :: rest => loginTimeFromStats rest
  | some st :: rest =>
      if st.login_time > 0 then some (st.login_time : ℚ)
      else loginTimeFromStats rest

/-- `_get_real_login_time`: prefer a positive `login_time` from
`wx849_device_info.json`, else probe the fallback files in order; `none` when
no positive timestamp is found (the Python function returns `None`, also on
any exception). -/
def getRealLoginTime (env : Env) : Option ℚ :=
  match env.deviceInfo with
  | some di =>
      if di.login_time > 0 then some (di.login_time : ℚ)
      else loginTimeFromStats env.loginStats
  | none => loginTimeFromStats env.loginStats

/-- `_load_current_login_info`: when `wx849_device_info.json` exists and
parses, cache its `wxid` and `device_id`; otherwise (absent file or
exception) leave the cached identity unchanged. -/
def loadCurrentLoginInfo (env : Env) (s : PluginState) : PluginState :=
  match env.deviceInfo with
  | some di => { s with current_wxid := di.wxid, current_device_id := di.device_id }
  | none => s

/-- `_should_send_warning` at wall-clock instants `nowDt` (`datetime.now()`)
and `nowTs` (`time.time()`): false when disabled or the target is empty or no
login time resolves; otherwise due when the elapsed hours reach
`session_duration_hours - warning_threshold` and more than 3600 seconds have
passed since `last_warning_time`. -/
def shouldSendWarning (env : Env) (s : PluginState) (nowDt nowTs : ℚ) : Bool :=
  if !s.warning_enabled || s.warning_target == "" then
    false
  else
    match getRealLoginTime env with
    | none => false
    | some loginTime =>
      let onlineHours := (nowDt - loginTime) / 3600
      let triggerHours := s.session_duration_hours - s.warning_threshold
      if onlineHours ≥ triggerHours then
        decide (nowTs - s.last_warning_time > 3600)
      else
        false

/-- Round a rational to the nearest integer, ties to even: the rounding Python
applies when formatting with `:.Nf` (on values exactly representable at the
relevant scale). -/
def roundHalfEven (q : ℚ) : ℤ :=
  let f := ⌊q⌋
  let r := q - (f : ℚ)
  if r < 1 / 2 then f
  else if r > 1 / 2 then f + 1
  else if f % 2 = 0 then f else f + 1

/-- Left-pad a digit string with zeros to the given length. -/
def padZeros (len : ℕ) (s : String) : String :=
  if s.length ≥ len then s
  else String.mk (List.replicate (len - s.length) '0') ++ s

/-- Python's fixed-point formatting `f-string {x:.pf}`: round half-to-even at
`p` decimal places and render with exactly `p` fractional digits. -/
def formatFixed (p : ℕ) (q : ℚ) : String :=
  let scaled := roundHalfEven (q * (10 : ℚ) ^ p)
  if p = 0 then toString scaled
  else
    let sign := if scaled < 0 then "-" else ""
    let n := scaled.natAbs
    let ip := n / 10 ^ p
    let fp := n % 10 ^ p
    sign ++ toString ip ++ "." ++ padZeros p (toString fp)

/-- The `$预警状态` reply body when `remaining_hours > 0` (one decimal place,
`:.1f`). -/
def statusActiveText (onlineHours remainingHours : ℚ) : String :=
  "⚠️ 当前预警状态\n您已持续在线超过" ++ formatFixed 1 onlineHours ++
  "小时，预计" ++ formatFixed 1 remainingHours ++ "小时内即将掉线。"

/-- The `$预警状态` reply body when `remaining_hours ≤ 0` (one decimal place,
`:.1f`). -/
def statusExpiredText (onlineHours : ℚ) : String :=
  "🔴 当前预警状态\n您已持续在线超过" ++ formatFixed 1 onlineHours ++
  "小时，session可能已过期，建议立即重新登录！"

/-- The `$预警测试` message body (zero decimal places, `:.0f`). -/
def warningTestText (onlineHours remainingHours : ℚ) : String :=
  "⚠️ 掉线预警测试\n您已持续在线超过" ++ formatFixed 0 onlineHours ++
  "小时，预计" ++ formatFixed 0 remainingHours ++
  "小时内即将掉线。\n为避免服务中断，请手动扫码重新登录！稍后将为您发送登录二维码。"

/-- The automated background warning message built in `_send_auto_warning`
(one decimal place, `:.1f`). -/
def autoWarningText (onlineHours remainingHours : ℚ) : String :=
  "⚠️ 登录状态预警\n\n您已持续在线超过" ++ formatFixed 1 onlineHours ++
  "小时，预计" ++ formatFixed 1 remainingHours ++
  "小时内即将掉线。\n\n为避免服务中断，请手动扫码重新登录！\n稍后将为您发送登录二维码。"

/-- Error reply of `_handle_status_query` / `_handle_warning_test` when the
current wxid cannot be resolved. -/
def noIdentityText : String := "❌ 无法获取当前登录信息，请确保微信已正常登录。"

/-- Error reply of `_handle_status_query` / `_handle_warning_test` when the
login time cannot be resolved. -/
def noLoginTimeText : String := "❌ 无法获取登录时间信息。"

/-- `online_hours` as computed in the handlers and the monitor loop:
`(now - login_time).total_seconds() / 3600`. -/
def onlineHoursOf (nowDt loginTime : ℚ) : ℚ :=
  (nowDt - loginTime) / 3600

/-- `remaining_hours` as computed in the handlers and the monitor loop:
`session_duration_hours - online_hours`. -/
def remainingHoursOf (s : PluginState) (nowDt loginTime : ℚ) : ℚ :=
  s.session_duration_hours - onlineHoursOf nowDt loginTime

/-- `_handle_status_query` at instant `nowDt`: refresh the cached identity,
report distinct errors for an unresolvable identity or login time, else
report online and remaining hours (one decimal place). Returns the updated
state and the text reply. -/
def handleStatusQuery (env : Env) (s : PluginState) (nowDt : ℚ) :
    PluginState × String :=
  let s1 := loadCurrentLoginInfo env s
  if s1.current_wxid = "" then
    (s1, noIdentityText)
  else
    match getRealLoginTime env with
    | none => (s1, noLoginTimeText)
    | some loginTime =>
      let onlineHours := onlineHoursOf nowDt loginTime
      let remainingHours := remainingHoursOf s1 nowDt loginTime
      if remainingHours > 0 then
        (s1, statusActiveText onlineHours remainingHours)
      else
        (s1, statusExpiredText onlineHours)

/-- `_handle_warning_test` at instant `nowDt`: same identity / login-time
checks as the status query, then a test message with zero decimal places; the
returned flag records that the asynchronous QR-sending thread was started. -/
def handleWarningTest (env : Env) (s : PluginState) (nowDt : ℚ) :
    PluginState × String × Bool :=
  let s1 := loadCurrentLoginInfo env s
  if s1.current_wxid = "" then
    (s1, noIdentityText, false)
  else
    match getRealLoginTime env with
    | none => (s1, noLoginTimeText, false)
    | some loginTime =>
      let onlineHours := onlineHoursOf nowDt loginTime
      let remainingHours := remainingHoursOf s1 nowDt loginTime
      (s1, warningTestText onlineHours remainingHours, true)

/-- Numeric value of a list of decimal digit characters. -/
def digitsVal (cs : List Char) : ℕ :=
  cs.foldl (fun a c => a * 10 + (c.toNat - '0'.toNat)) 0

/-- Parse the optional exponent suffix of a Python float literal
(`e`/`E`, optional sign, digits) and apply it to `base` with sign `sign`;
`none` on trailing garbage. -/
def applyExponent (sign base : ℚ) : List Char → Option ℚ
  | [] => some (sign * base)
  | c :: rest =>
    if c = 'e' ∨ c = 'E' then
      let (esign, rest1) : ℤ × List Char :=
        match rest with
        | '+' :: r => (1, r)
        | '-' :: r => (-1, r)
        | r => (1, r)
      let eDigits := rest1.takeWhile Char.isDigit
      let rest2 := rest1.dropWhile Char.isDigit
      if eDigits.isEmpty ∨ ¬rest2.isEmpty then none
      else some (sign * base * (10 : ℚ) ^ (esign * (digitsVal eDigits : ℤ)))
    else none

/-- Python's `float(s)` on the decimal-literal grammar: optional sign, digits
with an optional point and an optional exponent; `none` models the
`ValueError` branch. (`inf` / `nan` / underscore literals are not modelled:
no claim involves them.) -/
def pyFloat (s : String) : Option ℚ :=
  let cs := s.data
  let (sign, cs1) : ℚ × List Char :=
    match cs with
    | '+' :: r => (1, r)
    | '-' :: r => (-1, r)
    | r => (1, r)
  let intDigits := cs1.takeWhile Char.isDigit
  let cs2 := cs1.dropWhile Char.isDigit
  match cs2 with
  | '.' :: rest =>
    let fracDigits := rest.takeWhile Char.isDigit
    let cs3 := rest.dropWhile Char.isDigit
    if intDigits.isEmpty ∧ fracDigits.isEmpty then none
    else
      let base : ℚ :=
        (digitsVal intDigits : ℚ) +
          (digitsVal fracDigits : ℚ) / (10 : ℚ) ^ fracDigits.length
      applyExponent sign base cs3
  | _ =>
    if intDigits.isEmpty then none
    else applyExponent sign (digitsVal intDigits : ℚ) cs2

/-- `content.split()`: split on whitespace runs, dropping empty pieces. -/
def pySplit (content : String) : List String :=
  (content.split Char.isWhitespace).filter (fun t => t ≠ "")

/-- The reply of `_handle_threshold_setting`: one of the four literal error
texts, or the success message, which embeds the new threshold and the trigger
point `72 - threshold` (rendered by Python's `str` on floats, kept here as
the two rational parameters). -/
inductive ThresholdReply where
  | text (content : String)
  | successMsg (threshold trigger : ℚ)
deriving DecidableEq, Repr

/-- Error text for a wrong token count in `$预警阈值`. -/
def errTokenCountText : String :=
  "❌ 指令格式错误，请使用：$预警阈值 xh（如：$预警阈值 2h）"

/-- Error text for a missing `h` suffix. -/
def errMissingHText : String := "❌ 阈值格式错误，请使用小时单位，如：2h"

/-- Error text for a non-numeric value. -/
def errNotNumberText : String := "❌ 阈值必须是数字，如：2h"

/-- Error text for an out-of-range value. -/
def errOutOfRangeText : String := "❌ 阈值范围必须在0-72小时之间"

/-- `_handle_threshold_setting` on the full command `content`: split into
tokens, require exactly two, lowercase the argument, require an `h` suffix,
parse the number, require it in `[0, 72]`; on success update the in-memory
threshold, write it into the config and persist (the returned flag records
that `save_config` was called). -/
def handleThresholdSetting (s : PluginState) (content : String) :
    PluginState × ThresholdReply × Bool :=
  let parts := pySplit content
  if parts.length ≠ 2 then
    (s, .text errTokenCountText, false)
  else
    let thresholdStr := (parts.getD 1 "").toLower
    if !thresholdStr.endsWith "h" then
      (s, .text errMissingHText, false)
    else
      match pyFloat (thresholdStr.dropRight 1) with
      | none => (s, .text errNotNumberText, false)
      | some threshold =>
        if threshold < 0 ∨ threshold > 72 then
          (s, .text errOutOfRangeText, false)
        else
          let s1 :=
            { s with
              warning_threshold := threshold
              config :=
                { s.config with auto_session_warning_threshold := threshold } }
          (s1, .successMsg threshold (72 - threshold), true)

/-- Observable outcome of one HTTP POST as seen by the caller:
`status200 (some b)` is a 200 response whose JSON body carried `Success = b`,
`status200 none` is a 200 response whose body failed to parse as JSON,
`statusOther c` is a non-200 status `c`, and `exn` is a raised network
exception. -/
inductive HttpOutcome where
  | status200 (success : Option Bool)
  | statusOther (code : ℕ)
  | exn
deriving DecidableEq, Repr

/-- `_send_text_message`: returns the JSON `Success` flag on a parsed 200
response and `False` in every other case (non-200 status, JSON parse error,
raised exception are all caught). -/
def sendTextMessage : HttpOutcome → Bool
  | .status200 (some b) => b
  | .status200 none => false
  | .statusOther _ => false
  | .exn => false

/-- What one run of `_send_auto_warning` did: whether the text send was
attempted, the text it composed (once a login time resolved), whether the QR
step was attempted, and whether `last_warning_time` was recorded. -/
structure AutoWarnTrace where
  textAttempted : Bool
  composedText : Option String
  qrAttempted : Bool
  recorded : Bool
deriving DecidableEq, Repr

/-- `_send_auto_warning` at instant `nowDt`, with `recordTime` the
`time.time()` read after the sends: refresh identity, abort when no login
time resolves, compose the warning, send the text (outcome `textResp`); only
on text success attempt the QR step and record `last_warning_time`, whatever
the QR outcome `qrSuccess`. -/
def sendAutoWarning (env : Env) (s : PluginState) (nowDt recordTime : ℚ)
    (textResp : HttpOutcome) (qrSuccess : Bool) :
    PluginState × AutoWarnTrace :=
  let s1 := loadCurrentLoginInfo env s
  match getRealLoginTime env with
  | none => (s1, ⟨false, none, false, false⟩)
  | some loginTime =>
    let onlineHours := onlineHoursOf nowDt loginTime
    let remainingHours := remainingHoursOf s1 nowDt loginTime
    let warningText := autoWarningText onlineHours remainingHours
    if sendTextMessage textResp then
      ({ s1 with last_warning_time := recordTime },
       ⟨true, some warningText, true, true⟩)
    else
      (s1, ⟨true, some warningText, false, false⟩)

/-- The scratch files currently present in the `tmp` directory. -/
structure FS where
  files : List String
deriving DecidableEq, Repr

/-- `_download_qr_image`: on a 200 response write the image to a scratch path
and return it; on failure (non-200, exception) return `none` and leave the
filesystem unchanged. -/
def downloadQrImage (fs : FS) (ok : Bool) (scratchPath : String) :
    FS × Option String :=
  if ok then ({ files := scratchPath :: fs.files }, some scratchPath)
  else (fs, none)

/-- Observable outcome of the `/Login/GetQR` request: a non-200 status, a
parsed body with `Success = False`, a successful body carrying `QrUrl` and
`Uuid` (possibly empty), or a raised exception. -/
inductive GetQrOutcome where
  | httpFail (code : ℕ)
  | notSuccess
  | ok (qrUrl uuid : String)
  | exn
deriving DecidableEq, Repr

/-- `_send_login_qr_code`: request a QR code; when the backend succeeds with
a non-empty `QrUrl` and `Uuid`, download the image (`downloadOk`), send it
(`imgSendOk` — `_send_image_message` catches its own exceptions and returns a
Bool), then remove the scratch file whatever the send outcome; every other
path returns `False` without touching the filesystem. -/
def sendLoginQrCode (fs : FS) (getQr : GetQrOutcome) (downloadOk : Bool)
    (imgSendOk : Bool) (scratchPath : String) : FS × Bool :=
  match getQr with
  | .ok qrUrl uuid =>
    if qrUrl ≠ "" ∧ uuid ≠ "" then
      match downloadQrImage fs downloadOk scratchPath with
      | (fs1, some p) =>
        let success := imgSendOk
        let fs2 : FS := { files := fs1.files.filter (fun q => q ≠ p) }
        (fs2, success)
      | (fs1, none) => (fs1, false)
    else (fs, false)
  | _ => (fs, false)

/-- One scheduled iteration of `_background_check_loop`: either the body runs
to completion with the given environment, clock readings and send outcomes,
or some exception is raised inside the body (`raised`). -/
inductive IterInput where
  | step (env : Env) (nowDt nowTs recordTime : ℚ)
      (textResp : HttpOutcome) (qrSuccess : Bool)
  | raised
deriving Repr

/-- Observable action of the background loop: a body iteration that completed,
a body iteration that raised (and was caught and logged), a sleep of the given
number of seconds in the except branch, or the loop exiting. -/
inductive LoopAction where
  | iterOk
  | iterRaised
  | backoff (seconds : ℕ)
  | exited
deriving DecidableEq, Repr

/-- The body of one loop iteration (inside the `try`): check
`_should_send_warning` and, when due, run `_send_auto_warning`; `none` when
the iteration raised. -/
def loopBody (s : PluginState) : IterInput → Option PluginState
  | .step env nowDt nowTs recordTime textResp qrSuccess =>
    some
      (if shouldSendWarning env s nowDt nowTs then
        (sendAutoWarning env s nowDt recordTime textResp qrSuccess).1
      else s)
  | .raised => none

/-- `_background_check_loop` over a finite observation window: each schedule
entry is the value of `is_running` read at the `while` check, paired with
that iteration's input. A false flag exits the loop; an exception is caught
and followed by a fixed 60-second backoff, never termination. -/
def backgroundCheckLoop (s : PluginState) :
    List (Bool × IterInput) → PluginState × List LoopAction
  | [] => (s, [])
  | (running, inp) :: rest =>
    if running then
      match loopBody s inp with
      | some s1 =>
        let (sEnd, tr) := backgroundCheckLoop s1 rest
        (sEnd, .iterOk :: tr)
      | none =>
        let (sEnd, tr) := backgroundCheckLoop s rest
        (sEnd, .iterRaised :: .backoff 60 :: tr)
    else (s, [.exited])

/-- The due-predicate exactly as claim C1 words it: enabled, non-empty
target, resolvable login time, and online hours at least
`session_duration_hours - warning_threshold` — with no cooldown condition.
Stated from the spec's words, for comparison with `shouldSendWarning`. -/
def claimC1Due (env : Env) (s : PluginState) (nowDt : ℚ) : Bool :=
  s.warning_enabled && !(s.warning_target == "") &&
    match getRealLoginTime env with
    | none => false
    | some loginTime =>
      decide ((nowDt - loginTime) / 3600 ≥
        s.session_duration_hours - s.warning_threshold)

/-- The automated warning text as claim C6 describes it, with zero decimal
places. Stated from the spec's words, for comparison with
`autoWarningText`. -/
def claimC6AutoWarningText (onlineHours remainingHours : ℚ) : String :=
  "⚠️ 登录状态预警\n\n您已持续在线超过" ++ formatFixed 0 onlineHours ++
  "小时，预计" ++ formatFixed 0 remainingHours ++
  "小时内即将掉线。\n\n为避免服务中断，请手动扫码重新登录！\n稍后将为您发送登录二维码。"

/-- A sample environment: the device file exists and holds login time
360000 seconds. -/
def sampleEnv : Env := ⟨some ⟨"w", "d", 360000⟩, []⟩

/-- A sample state: the default configuration with a non-empty warning
target. -/
def sampleState : PluginState := { initPlugin none with warning_target := "t" }

/-- `_load_current_login_info` only touches the cached identity fields; in
particular `last_warning_time` is unchanged. -/
theorem loadCurrentLoginInfo_last_warning_time (env : Env) (s : PluginState) :
    (loadCurrentLoginInfo env s).last_warning_time = s.last_warning_time := by
  cases h : env.deviceInfo <;> simp [loadCurrentLoginInfo, h]

/-- `_load_current_login_info` leaves `session_duration_hours` unchanged. -/
theorem loadCurrentLoginInfo_session_duration (env : Env) (s : PluginState) :
    (loadCurrentLoginInfo env s).session_duration_hours =
      s.session_duration_hours := by
  cases h : env.deviceInfo <;> simp [loadCurrentLoginInfo, h]

/-- C10: with no persisted configuration at construction, the plugin defaults
to warning enabled, a 2-hour threshold, an empty warning target, a 72-hour
session lifetime and a 2-hour poll interval, and — the default being
enabled — the background polling loop is started during initialization. -/
theorem c10_default_config_starts_loop :
    (initPlugin none).warning_enabled = true ∧
    (initPlugin none).warning_threshold = 2 ∧
    (initPlugin none).warning_target = "" ∧
    (initPlugin none).session_duration_hours = 72 ∧
    (initPlugin none).check_interval_hours = 2 ∧
    (initPlugin none).is_running = true := by
  refine ⟨?_, ?_, ?_, ?_, ?_, ?_⟩ <;>
    simp [initPlugin, loadDefaultConfig, startBackgroundCheck]

/-- C1 counterexample: an instance where the claim's four conditions hold
(enabled, non-empty target, resolvable login time, online hours at the
trigger) yet `_should_send_warning` returns false, because fewer than 3600
seconds have passed since `last_warning_time`. -/
theorem c1_counterexample :
    claimC1Due sampleEnv sampleState 612000 = true ∧
    shouldSendWarning sampleEnv sampleState 612000 1000 = false := by
  constructor
  · simp only [claimC1Due, sampleEnv, sampleState, initPlugin,
      loadDefaultConfig, startBackgroundCheck, getRealLoginTime,
      loginTimeFromStats]
    norm_num
    decide
  · simp only [shouldSendWarning, sampleEnv, sampleState, initPlugin,
      loadDefaultConfig, startBackgroundCheck, getRealLoginTime,
      loginTimeFromStats]
    norm_num

/-- C1 (amended): `_should_send_warning` returns true iff the claim's four
conditions hold AND more than 3600 seconds have elapsed since the last
recorded warning time; in particular, setting `warning_enabled` to false
makes it return false for every combination of the other inputs. -/
theorem c1_due_iff_with_cooldown (env : Env) (s : PluginState)
    (nowDt nowTs : ℚ) :
    shouldSendWarning env s nowDt nowTs =
      (claimC1Due env s nowDt &&
        decide (nowTs - s.last_warning_time > 3600)) ∧
    shouldSendWarning env { s with warning_enabled := false } nowDt nowTs =
      false := by
  constructor
  · unfold shouldSendWarning claimC1Due
    cases hw : s.warning_enabled
    · simp [hw]
    · cases ht : s.warning_target == ""
      · cases hl : getRealLoginTime env
        · simp [hw, ht, hl]
        · simp only [hw, ht, hl, Bool.not_false, Bool.false_or, if_false,
            Bool.true_and]
          split
          · simp_all
          · simp_all
      · simp [hw, ht]
  · unfold shouldSendWarning
    simp

/-- C5: `remaining_hours` is computed exactly as
`session_duration_hours - (now - login_time)/3600` with exact (rational)
arithmetic, rounding only at display time; with lifetime 72, threshold 2 and
login 70 hours ago the due-evaluation is true and 2 hours remain, and with
login 10 hours ago it is false and 62 hours remain. -/
theorem c5_remaining_hours_exact :
    (∀ (s : PluginState) (nowDt loginTime : ℚ),
      remainingHoursOf s nowDt loginTime =
        s.session_duration_hours - (nowDt - loginTime) / 3600) ∧
    shouldSendWarning sampleEnv sampleState 612000 1000000 = true ∧
    remainingHoursOf sampleState 612000 360000 = 2 ∧
    shouldSendWarning sampleEnv sampleState 396000 1000000 = false ∧
    remainingHoursOf sampleState 396000 360000 = 62 := by
  refine ⟨fun s nowDt loginTime => rfl, ?_, ?_, ?_, ?_⟩
  · simp only [shouldSendWarning, sampleEnv, sampleState, initPlugin,
      loadDefaultConfig, startBackgroundCheck, getRealLoginTime,
      loginTimeFromStats]
    norm_num
    decide
  · simp only [remainingHoursOf, onlineHoursOf, sampleState, initPlugin,
      loadDefaultConfig, startBackgroundCheck]
    norm_num
  · simp only [shouldSendWarning, sampleEnv, sampleState, initPlugin,
      loadDefaultConfig, startBackgroundCheck, getRealLoginTime,
      loginTimeFromStats]
    norm_num
  · simp only [remainingHoursOf, onlineHoursOf, sampleState, initPlugin,
      loadDefaultConfig, startBackgroundCheck]
    norm_num

/-- C4: `$预警阈值 2h` sets the threshold to 2, writes it into the config and
persists; `$预警阈值 abcs` and `$预警阈值 2` are rejected for the missing `h`
suffix, `$预警阈值 90h` for the out-of-range value, `$预警阈值 2h extra` for
the wrong token count — each without modifying the state or persisting — and
the four user-facing error messages are pairwise distinct. -/
theorem c4_threshold_setting (s : PluginState) :
    handleThresholdSetting s "$预警阈值 2h" =
      ({ s with
          warning_threshold := 2
          config := { s.config with auto_session_warning_threshold := 2 } },
        .successMsg 2 70, true) ∧
    handleThresholdSetting s "$预警阈值 abcs" =
      (s, .text errMissingHText, false) ∧
    handleThresholdSetting s "$预警阈值 90h" =
      (s, .text errOutOfRangeText, false) ∧
    handleThresholdSetting s "$预警阈值 2" =
      (s, .text errMissingHText, false) ∧
    handleThresholdSetting s "$预警阈值 2h extra" =
      (s, .text errTokenCountText, false) ∧
    (errTokenCountText ≠ errMissingHText ∧
     errTokenCountText ≠ errNotNumberText ∧
     errTokenCountText ≠ errOutOfRangeText ∧
     errMissingHText ≠ errNotNumberText ∧
     errMissingHText ≠ errOutOfRangeText ∧
     errNotNumberText ≠ errOutOfRangeText) := by
  refine ⟨?_, ?_, ?_, ?_, ?_, by decide⟩ <;> with_unfolding_all rfl

/-- C6 counterexample: at 70.5 online hours and 1.5 remaining hours the
automated background warning text is NOT the zero-decimal rendering the
claim describes — `_send_auto_warning` formats with one decimal place
(`70.5` / `1.5`), not zero (`70` / `2`). -/
theorem c6_counterexample :
    autoWarningText (141 / 2) (3 / 2) ≠
      claimC6AutoWarningText (141 / 2) (3 / 2) := by
  with_unfolding_all (exact fun h => absurd h (of_decide_eq_false rfl))

/-- C6 (amended): the manual status query and the automated background
warning both format online/remaining hours with ONE decimal place, while the
test command formats with zero decimal places; the two renderings genuinely
differ (e.g. at 70.5 hours). -/
theorem c6_display_precision (onlineHours remainingHours : ℚ) :
    statusActiveText onlineHours remainingHours =
      "⚠️ 当前预警状态\n您已持续在线超过" ++ formatFixed 1 onlineHours ++
        "小时，预计" ++ formatFixed 1 remainingHours ++ "小时内即将掉线。" ∧
    autoWarningText onlineHours remainingHours =
      "⚠️ 登录状态预警\n\n您已持续在线超过" ++ formatFixed 1 onlineHours ++
        "小时，预计" ++ formatFixed 1 remainingHours ++
        "小时内即将掉线。\n\n为避免服务中断，请手动扫码重新登录！\n稍后将为您发送登录二维码。" ∧
    warningTestText onlineHours remainingHours =
      "⚠️ 掉线预警测试\n您已持续在线超过" ++ formatFixed 0 onlineHours ++
        "小时，预计" ++ formatFixed 0 remainingHours ++
        "小时内即将掉线。\n为避免服务中断，请手动扫码重新登录！稍后将为您发送登录二维码。" ∧
    formatFixed 1 (141 / 2) ≠ formatFixed 0 (141 / 2) := by
  refine ⟨rfl, rfl, rfl, ?_⟩
  with_unfolding_all (exact fun h => absurd h (of_decide_eq_false rfl))

/-- C3: if the text step of `_send_auto_warning` fails — HTTP 500 on
`SendTxt`, a non-`Success` JSON body, or a raised exception all make
`_send_text_message` return false — the QR-image step is not attempted and
`last_warning_time` is unchanged; `last_warning_time` is recorded exactly
when the text step succeeds (given a resolvable login time), and a failing
image step does not prevent the recording. -/
theorem c3_text_failure_aborts_workflow (env : Env) (s : PluginState)
    (nowDt recordTime : ℚ) (qrSuccess : Bool) :
    sendTextMessage (.statusOther 500) = false ∧
    sendTextMessage (.status200 (some false)) = false ∧
    sendTextMessage (.status200 none) = false ∧
    sendTextMessage .exn = false ∧
    (∀ textResp, sendTextMessage textResp = false →
      (sendAutoWarning env s nowDt recordTime textResp qrSuccess).2.qrAttempted
          = false ∧
      (sendAutoWarning env s nowDt recordTime textResp
          qrSuccess).1.last_warning_time = s.last_warning_time) ∧
    (∀ textResp,
      (sendAutoWarning env s nowDt recordTime textResp qrSuccess).2.recorded
          = true →
      sendTextMessage textResp = true) ∧
    (∀ textResp loginTime, sendTextMessage textResp = true →
      getRealLoginTime env = some loginTime →
      (sendAutoWarning env s nowDt recordTime textResp false).2.recorded
          = true ∧
      (sendAutoWarning env s nowDt recordTime textResp
          false).1.last_warning_time = recordTime) := by
  refine ⟨rfl, rfl, rfl, rfl, ?_, ?_, ?_⟩
  · intro textResp hfail
    cases hl : getRealLoginTime env <;>
      simp [sendAutoWarning, hl, hfail, loadCurrentLoginInfo_last_warning_time]
  · intro textResp hrec
    cases hsend : sendTextMessage textResp
    · cases hl : getRealLoginTime env <;>
        simp [sendAutoWarning, hl, hsend] at hrec
    · rfl
  · intro textResp loginTime hsend hl
    simp [sendAutoWarning, hl, hsend]

/-- Two consecutive runs of the monitor's check (`_should_send_warning`
followed, when due, by `_send_auto_warning`), threading the plugin state:
returns how many times the workflow fired, i.e. sent the text warning and
recorded a fire time. Each evaluation `i` sees environment `envI`, clocks
`nowDtI` / `nowTsI`, record instant `rI` and backend outcomes. -/
def twoEvalFireCount (env1 env2 : Env) (s : PluginState)
    (nowDt1 nowTs1 r1 nowDt2 nowTs2 r2 : ℚ)
    (resp1 resp2 : HttpOutcome) (qs1 qs2 : Bool) : ℕ :=
  let step1 :=
    if shouldSendWarning env1 s nowDt1 nowTs1 then
      let res := sendAutoWarning env1 s nowDt1 r1 resp1 qs1
      (res.1, if res.2.recorded then 1 else 0)
    else (s, 0)
  let n2 :=
    if shouldSendWarning env2 step1.1 nowDt2 nowTs2 then
      if (sendAutoWarning env2 step1.1 nowDt2 r2 resp2 qs2).2.recorded then
        1
      else 0
    else 0
  step1.2 + n2

/-- When `_send_auto_warning` records a fire, `last_warning_time` becomes the
record instant. -/
theorem sendAutoWarning_recorded_last (env : Env) (s : PluginState)
    (nowDt r : ℚ) (resp : HttpOutcome) (qs : Bool)
    (h : (sendAutoWarning env s nowDt r resp qs).2.recorded = true) :
    (sendAutoWarning env s nowDt r resp qs).1.last_warning_time = r := by
  cases hl : getRealLoginTime env
  · simp [sendAutoWarning, hl] at h
  · cases hsend : sendTextMessage resp
    · simp [sendAutoWarning, hl, hsend] at h
    · simp [sendAutoWarning, hl, hsend]

/-- Characterization of `_should_send_warning`: the claim-C1 conditions
conjoined with the cooldown check. -/
theorem shouldSendWarning_char (env : Env) (s : PluginState)
    (nowDt nowTs : ℚ) :
    shouldSendWarning env s nowDt nowTs =
      (claimC1Due env s nowDt &&
        decide (nowTs - s.last_warning_time > 3600)) := by
  unfold shouldSendWarning claimC1Due
  cases hw : s.warning_enabled
  · simp [hw]
  · cases ht : s.warning_target == ""
    · cases hl : getRealLoginTime env
      · simp [hw, ht, hl]
      · simp only [hw, ht, hl, Bool.not_false, Bool.false_or, if_false,
          Bool.true_and]
        split
        · simp_all
        · simp_all
    · simp [hw, ht]

/-- `_should_send_warning` only returns true when more than 3600 seconds have
elapsed since `last_warning_time`. -/
theorem shouldSendWarning_cooldown (env : Env) (s : PluginState)
    (nowDt nowTs : ℚ) (h : shouldSendWarning env s nowDt nowTs = true) :
    nowTs - s.last_warning_time > 3600 := by
  rw [shouldSendWarning_char, Bool.and_eq_true] at h
  exact of_decide_eq_true h.2

/-- C2: across two due-evaluations whose `time.time()` readings are at most
3600 seconds apart (the first firing's record instant being no earlier than
its evaluation's clock reading), the automatic delivery workflow fires —
sends the warning and records a fire time — at most once; and any firing
requires more than 3600 seconds to have elapsed since the last recorded fire
time. -/
theorem c2_cooldown_at_most_one_fire (env1 env2 : Env) (s : PluginState)
    (nowDt1 nowTs1 r1 nowDt2 nowTs2 r2 : ℚ)
    (resp1 resp2 : HttpOutcome) (qs1 qs2 : Bool)
    (h1 : nowTs1 ≤ r1) (hwin : nowTs2 - nowTs1 ≤ 3600) :
    twoEvalFireCount env1 env2 s nowDt1 nowTs1 r1 nowDt2 nowTs2 r2
        resp1 resp2 qs1 qs2 ≤ 1 ∧
    (∀ (env : Env) (s' : PluginState) (nowDt nowTs : ℚ),
      shouldSendWarning env s' nowDt nowTs = true →
      nowTs - s'.last_warning_time > 3600) := by
  refine ⟨?_, fun env s' nowDt nowTs h => shouldSendWarning_cooldown _ _ _ _ h⟩
  unfold twoEvalFireCount
  cases hdue1 : shouldSendWarning env1 s nowDt1 nowTs1
  · simp only [Bool.false_eq_true, if_false]
    split
    · split <;> omega
    · omega
  · simp only [if_true]
    cases hrec : (sendAutoWarning env1 s nowDt1 r1 resp1 qs1).2.recorded
    · simp only [Bool.false_eq_true, if_false]
      split
      · split <;> omega
      · omega
    · simp only [if_true]
      have hlast := sendAutoWarning_recorded_last env1 s nowDt1 r1 resp1 qs1 hrec
      have hnot :
          shouldSendWarning env2 (sendAutoWarning env1 s nowDt1 r1 resp1 qs1).1
            nowDt2 nowTs2 = false := by
        by_contra hc
        rw [Bool.not_eq_false] at hc
        have := shouldSendWarning_cooldown _ _ _ _ hc
        rw [hlast] at this
        linarith
      simp [hnot]

/-- In the background loop's action trace, an iteration that raised is
immediately followed by the fixed 60-second backoff. -/
theorem backgroundCheckLoop_backoff (s : PluginState)
    (sched : List (Bool × IterInput)) (i : ℕ)
    (h : (backgroundCheckLoop s sched).2.get? i = some .iterRaised) :
    (backgroundCheckLoop s sched).2.get? (i + 1) = some (.backoff 60) := by
  induction sched generalizing s i with
  | nil => simp [backgroundCheckLoop] at h
  | cons p rest ih =>
    obtain ⟨running, inp⟩ := p
    cases running
    · simp [backgroundCheckLoop] at h
      rcases i with _ | j <;> simp_all [List.get?]
    · cases hb : loopBody s inp with
      | some s1 =>
        simp only [backgroundCheckLoop, if_true, hb] at h ⊢
        rcases i with _ | j
        · simp [List.get?] at h
        · simp only [List.get?] at h ⊢
          exact ih s1 j h
      | none =>
        simp only [backgroundCheckLoop, if_true, hb] at h ⊢
        rcases i with _ | j
        · simp [List.get?]
        · rcases j with _ | k
          · simp [List.get?] at h
          · simp only [List.get?] at h ⊢
            exact ih s k h

/-- The background loop emits `exited` only when some schedule entry read
`is_running = false`. -/
theorem backgroundCheckLoop_exit_only_on_stop (s : PluginState)
    (sched : List (Bool × IterInput))
    (h : LoopAction.exited ∈ (backgroundCheckLoop s sched).2) :
    ∃ p ∈ sched, p.1 = false := by
  induction sched generalizing s with
  | nil => simp [backgroundCheckLoop] at h
  | cons p rest ih =>
    obtain ⟨running, inp⟩ := p
    cases running
    · exact ⟨(false, inp), List.mem_cons_self _ _, rfl⟩
    · cases hb : loopBody s inp with
      | some s1 =>
        simp only [backgroundCheckLoop, if_true, hb, List.mem_cons] at h
        rcases h with h | h
        · exact absurd h (by simp)
        · obtain ⟨q, hq, hq1⟩ := ih s1 h
          exact ⟨q, List.mem_cons_of_mem _ hq, hq1⟩
      | none =>
        simp only [backgroundCheckLoop, if_true, hb, List.mem_cons] at h
        rcases h with h | h | h
        · exact absurd h (by simp)
        · exact absurd h (by simp)
        · obtain ⟨q, hq, hq1⟩ := ih s h
          exact ⟨q, List.mem_cons_of_mem _ hq, hq1⟩

/-- C7: in `_background_check_loop`, an exception inside an iteration body is
caught and followed by a fixed 60-second backoff before the next iteration,
and the loop never exits because of an exception: as long as every
`is_running` read is true the trace never contains `exited`, and an `exited`
action can only come from a schedule entry where the stop flag was
cleared. -/
theorem c7_loop_survives_exceptions (s : PluginState)
    (sched : List (Bool × IterInput)) :
    ((∀ p ∈ sched, p.1 = true) →
      LoopAction.exited ∉ (backgroundCheckLoop s sched).2) ∧
    (∀ i, (backgroundCheckLoop s sched).2.get? i = some .iterRaised →
      (backgroundCheckLoop s sched).2.get? (i + 1) = some (.backoff 60)) ∧
    (LoopAction.exited ∈ (backgroundCheckLoop s sched).2 →
      ∃ p ∈ sched, p.1 = false) := by
  refine ⟨?_, fun i h => backgroundCheckLoop_backoff s sched i h,
    fun h => backgroundCheckLoop_exit_only_on_stop s sched h⟩
  intro hall hmem
  obtain ⟨p, hp, hp1⟩ := backgroundCheckLoop_exit_only_on_stop s sched hmem
  rw [hall p hp] at hp1
  exact absurd hp1 (by simp)

/-- All-absent fallback files yield no login time. -/
theorem loginTimeFromStats_all_none (stats : List (Option LoginStat))
    (h : ∀ st ∈ stats, st = none) : loginTimeFromStats stats = none := by
  induction stats with
  | nil => rfl
  | cons st rest ih =>
    cases hst : st with
    | none =>
      simp only [loginTimeFromStats]
      exact ih fun q hq => h q (List.mem_cons_of_mem _ hq)
    | some v =>
      exact absurd (h st (List.mem_cons_self _ _)) (by simp [hst])

/-- C8: with `wx849_device_info.json` absent and every fallback
`login_stat.json` absent, the status and test handlers return the
"cannot resolve identity" message (the cached wxid still being empty), the
due-evaluation is false — `_should_send_warning` is a total function, so the
loop iteration raises nothing — and when only the identity is resolvable
(device file present, non-empty wxid, no positive login time anywhere) both
handlers return the "cannot get login time" message. -/
theorem c8_missing_state_files (env : Env) (s : PluginState)
    (nowDt nowTs : ℚ)
    (hdev : env.deviceInfo = none)
    (hstats : ∀ st ∈ env.loginStats, st = none)
    (hwx : s.current_wxid = "") :
    (handleStatusQuery env s nowDt).2 = noIdentityText ∧
    (handleWarningTest env s nowDt).2.1 = noIdentityText ∧
    shouldSendWarning env s nowDt nowTs = false ∧
    (∀ di : DeviceInfo, di.wxid ≠ "" → ¬di.login_time > 0 →
      (handleStatusQuery ⟨some di, env.loginStats⟩ s nowDt).2
          = noLoginTimeText ∧
      (handleWarningTest ⟨some di, env.loginStats⟩ s nowDt).2.1
          = noLoginTimeText) := by
  have hstats0 : loginTimeFromStats env.loginStats = none :=
    loginTimeFromStats_all_none env.loginStats hstats
  have hlt : getRealLoginTime env = none := by
    unfold getRealLoginTime
    rw [hdev, hstats0]
  refine ⟨?_, ?_, ?_, ?_⟩
  · simp [handleStatusQuery, loadCurrentLoginInfo, hdev, hwx]
  · simp [handleWarningTest, loadCurrentLoginInfo, hdev, hwx]
  · rw [shouldSendWarning_char]
    unfold claimC1Due
    rw [hlt]
    simp
  · intro di hdi hlogin
    have hlt2 : getRealLoginTime ⟨some di, env.loginStats⟩ = none := by
      unfold getRealLoginTime
      simp only [hlogin, if_false]
      exact hstats0
    constructor
    · simp [handleStatusQuery, loadCurrentLoginInfo, hdi, hlt2]
    · simp [handleWarningTest, loadCurrentLoginInfo, hdi, hlt2]

/-- C9: in `_send_login_qr_code`, once the QR image has been downloaded to
the scratch path, the scratch file is removed before the workflow returns,
whether the image transmission succeeds or fails; the returned flag is the
transmission outcome. -/
theorem c9_scratch_file_cleanup (fs : FS) (qrUrl uuid scratchPath : String)
    (imgSendOk : Bool) (hq : qrUrl ≠ "") (hu : uuid ≠ "") :
    scratchPath ∉
      (sendLoginQrCode fs (.ok qrUrl uuid) true imgSendOk scratchPath).1.files ∧
    (sendLoginQrCode fs (.ok qrUrl uuid) true imgSendOk scratchPath).2
        = imgSendOk := by
  unfold sendLoginQrCode downloadQrImage
  simp only [if_pos (And.intro hq hu), if_true]
  refine ⟨fun hmem => ?_, trivial⟩
  rcases List.mem_filter.mp hmem with ⟨-, hne⟩
  simp at hne

/-- Witness for C2: a concrete pair of due-evaluations 500 seconds apart
fires at most once. -/
theorem c2_cooldown_witness :
    twoEvalFireCount sampleEnv sampleEnv sampleState
        612000 1000000 1000001 612010 1000500 1000501
        (.status200 (some true)) (.status200 (some true)) true true ≤ 1 :=
  (c2_cooldown_at_most_one_fire sampleEnv sampleEnv sampleState
    612000 1000000 1000001 612010 1000500 1000501
    (.status200 (some true)) (.status200 (some true)) true true
    (by norm_num) (by norm_num)).1

/-- Witness for C3: at a concrete state, HTTP 500 on the text step skips the
QR step and keeps `last_warning_time`, while a successful text step with a
failing image step still records the fire time. -/
theorem c3_witness :
    (sendAutoWarning sampleEnv sampleState 612000 999
        (.statusOther 500) true).2.qrAttempted = false ∧
    (sendAutoWarning sampleEnv sampleState 612000 999
        (.statusOther 500) true).1.last_warning_time
      = sampleState.last_warning_time ∧
    (sendAutoWarning sampleEnv sampleState 612000 999
        (.status200 (some true)) false).2.recorded = true ∧
    (sendAutoWarning sampleEnv sampleState 612000 999
        (.status200 (some true)) false).1.last_warning_time = 999 := by
  have h := c3_text_failure_aborts_workflow sampleEnv sampleState 612000 999
    true
  have hlt : getRealLoginTime sampleEnv = some 360000 := by
    with_unfolding_all rfl
  exact ⟨(h.2.2.2.2.1 (.statusOther 500) rfl).1,
    (h.2.2.2.2.1 (.statusOther 500) rfl).2,
    (h.2.2.2.2.2.2 (.status200 (some true)) 360000 rfl hlt).1,
    (h.2.2.2.2.2.2 (.status200 (some true)) 360000 rfl hlt).2⟩

/-- Witness for C7: with the stop flag always true, two raising iterations
produce no `exited` action, and in a raising schedule the action after the
raised iteration is the 60-second backoff. -/
theorem c7_witness :
    LoopAction.exited ∉
      (backgroundCheckLoop sampleState
        [(true, .raised), (true, .raised)]).2 ∧
    (backgroundCheckLoop sampleState [(true, .raised)]).2.get? 1
      = some (.backoff 60) := by
  constructor
  · exact (c7_loop_survives_exceptions sampleState
      [(true, .raised), (true, .raised)]).1 (by decide)
  · exact (c7_loop_survives_exceptions sampleState [(true, .raised)]).2.1 0 rfl

/-- Witness for C8: with all state files absent the status handler returns
the identity error and the due-evaluation is false; with only a
zero-timestamp device file present it returns the login-time error. -/
theorem c8_witness :
    (handleStatusQuery ⟨none, [none, none, none]⟩ (initPlugin none) 612000).2
      = noIdentityText ∧
    shouldSendWarning ⟨none, [none, none, none]⟩ (initPlugin none)
      612000 1000000 = false ∧
    (handleStatusQuery ⟨some ⟨"w", "d", 0⟩, [none, none, none]⟩
      (initPlugin none) 612000).2 = noLoginTimeText := by
  have h := c8_missing_state_files ⟨none, [none, none, none]⟩
    (initPlugin none) 612000 1000000 rfl (by decide)
    (by with_unfolding_all rfl)
  exact ⟨h.1, h.2.2.1,
    (h.2.2.2 ⟨"w", "d", 0⟩ (by decide) (by decide)).1⟩

/-- Witness for C9: a concrete QR workflow with a failing image transmission
still leaves no scratch file behind. -/
theorem c9_witness :
    "p" ∉ (sendLoginQrCode ⟨[]⟩ (.ok "u" "i") true false "p").1.files ∧
    (sendLoginQrCode ⟨[]⟩ (.ok "u" "i") true false "p").2 = false :=
  c9_scratch_file_cleanup ⟨[]⟩ "u" "i" "p" false (by decide) (by decide)

end AutoSessionWarning
